import Mathlib

/-!
Verification of the browser-agent-bridge authorization core.

This file shallowly embeds the Chrome-extension service worker and content
script of the repository (session tokens, nonce replay guard, tab isolation,
the two-level permission model, and the per-command pipeline) as executable
Lean definitions, together with the collaborators from the extensions-core
package, and proves the specified properties about them.
-/

namespace Bridge

/-- Session-token lifetime in milliseconds: `Date.now() + 24 * 60 * 60 * 1000`. -/
def tokenLifetimeMs : Nat := 24 * 60 * 60 * 1000

/-- The approval timeout passed to `setTimeout` for a pending permission. -/
def permissionTimeoutMs : Nat := 30000

/-- Bound of the used-nonce cache (`usedNonces.size > 10000` triggers eviction). -/
def nonceCacheLimit : Nat := 10000

/-- Modelled from the spec: the extensions-core package is not among the
sources; a `Session` of its `SessionManager` binds a caller origin to the
tabs and auto-granted target origins of one session. -/
structure Session where
  sessionId : String
  callerOrigin : String
  createdAt : Nat
  tabIds : List Nat
  grantedOrigins : List String
deriving Repr, DecidableEq

/-- An entry of the service worker's `sessionTokens` map. -/
structure SessionTokenInfo where
  origin : String
  createdAt : Nat
  expiresAt : Nat
deriving Repr, DecidableEq

/-- A permission request handed to `requestPermission` by the command router. -/
structure PermissionRequest where
  action : String
  callerOrigin : String
  targetOrigin : String
  url : Option String := none
  element : Option String := none
  ref : Option String := none
  text : Option String := none
deriving Repr, DecidableEq

/-- Modelled from the spec: a persistent allow-rule of the extensions-core
`PermissionManager`, keyed by caller and target origin. -/
structure PermissionPolicy where
  callerOrigin : String
  targetOrigin : String
  allowedActions : List String
deriving Repr, DecidableEq

/-- An entry of the service worker's `pendingPermissions` map (the resolve
and reject callbacks are represented by how the entry is consumed). -/
structure PendingPermissionUI where
  id : String
  request : PermissionRequest
  sessionId : String
deriving Repr, DecidableEq

/-- An entry of the service worker's `pendingRequests` correlation map. -/
structure PendingRequest where
  origin : String
  timestamp : Nat
  tabId : Nat
deriving Repr, DecidableEq

/-- The mutable module-level state of the service worker. -/
structure SWState where
  sessions : List Session
  sessionCallerOrigins : List (String × String)
  usedNonces : List String
  sessionTokens : List (String × SessionTokenInfo)
  pendingRequests : List (String × PendingRequest)
  pendingPermissions : List (String × PendingPermissionUI)
  policies : List PermissionPolicy
deriving Repr, DecidableEq

/-- The empty service-worker state at process start. -/
def SWState.empty : SWState := ⟨[], [], [], [], [], [], []⟩

/-- Lookup in an association list, modelling `Map.get`. -/
def lookupStr {α : Type} (l : List (String × α)) (k : String) : Option α :=
  (l.find? (fun p => p.fst == k)).map (fun p => p.snd)

/-- `Map.set`: overwrite an existing key in place, else append (JS maps keep
insertion order). -/
def mapSet {α : Type} (l : List (String × α)) (k : String) (v : α) : List (String × α) :=
  if (l.find? (fun p => p.fst == k)).isSome then
    l.map (fun p => if p.fst == k then (k, v) else p)
  else l ++ [(k, v)]

/-- `Map.delete`. -/
def mapDelete {α : Type} (l : List (String × α)) (k : String) : List (String × α) :=
  l.filter (fun p => p.fst != k)

/-- Modelled from the spec: `SessionManager.createSession(origin)` of the
extensions-core package creates a session with no tabs and no grants; the
fresh opaque id is passed in explicitly. -/
def createSession (origin : String) (freshId : String) (now : Nat) : Session :=
  ⟨freshId, origin, now, [], []⟩

/-- Modelled from the spec: `SessionManager.getSession`. -/
def getSession (sessions : List Session) (sid : String) : Option Session :=
  sessions.find? (fun s => s.sessionId == sid)

/-- Modelled from the spec: `SessionManager.addTabToSession`. -/
def addTabToSession (sessions : List Session) (sid : String) (tid : Nat) : List Session :=
  sessions.map (fun s =>
    if s.sessionId == sid then { s with tabIds := s.tabIds ++ [tid] } else s)

/-- Modelled from the spec: `SessionManager.isTabInSession` is the
tab-isolation boundary; an unknown session or an unregistered tab denies. -/
def isTabInSession (sessions : List Session) (sid : String) (tid : Nat) : Bool :=
  match getSession sessions sid with
  | some s => s.tabIds.contains tid
  | none => false

/-- Modelled from the spec: `SessionManager.grantOriginForSession`. -/
def grantOriginForSession (sessions : List Session) (sid : String) (origin : String) :
    List Session :=
  sessions.map (fun s =>
    if s.sessionId == sid then
      { s with grantedOrigins :=
          if s.grantedOrigins.contains origin then s.grantedOrigins
          else s.grantedOrigins ++ [origin] }
    else s)

/-- Modelled from the spec: `SessionManager.isOriginGrantedForSession`. -/
def isOriginGrantedForSession (sessions : List Session) (sid : String) (origin : String) :
    Bool :=
  match getSession sessions sid with
  | some s => s.grantedOrigins.contains origin
  | none => false

/-- Modelled from the spec: `PermissionManager.isSecureOrigin` accepts only
HTTPS origins and localhost/loopback (a startsWith test, expressed over the
character lists so that every proof can evaluate it). -/
def isSecureOrigin (origin : String) : Bool :=
  "https://".data.isPrefixOf origin.data ||
    "http://localhost".data.isPrefixOf origin.data ||
    "http://127.0.0.1".data.isPrefixOf origin.data

/-- Modelled from the spec: `PermissionManager.isAllowed` checks the
persistent policies for an exact (callerOrigin, targetOrigin) match whose
allowed-action set contains the requested action. -/
def isAllowed (policies : List PermissionPolicy) (req : PermissionRequest) : Bool :=
  policies.any (fun p =>
    p.callerOrigin == req.callerOrigin && p.targetOrigin == req.targetOrigin &&
      p.allowedActions.contains req.action)

/-- Modelled from the spec: `PermissionManager.grantPermission` adds the
action to the policy for the exact origin pair, creating it if absent. -/
def grantPermission (policies : List PermissionPolicy) (req : PermissionRequest) :
    List PermissionPolicy :=
  if policies.any (fun p =>
      p.callerOrigin == req.callerOrigin && p.targetOrigin == req.targetOrigin) then
    policies.map (fun p =>
      if p.callerOrigin == req.callerOrigin && p.targetOrigin == req.targetOrigin then
        { p with allowedActions :=
            if p.allowedActions.contains req.action then p.allowedActions
            else p.allowedActions ++ [req.action] }
      else p)
  else policies ++ [⟨req.callerOrigin, req.targetOrigin, [req.action]⟩]

/-- The cleanup step of the replay guard: when the cache exceeds 10000
entries the oldest-inserted entries are removed down to 10000. -/
def evictOld (l : List String) : List String :=
  if nonceCacheLimit < l.length then l.drop (l.length - nonceCacheLimit) else l

/-- The nonce replay guard shared by the content script and the service
worker (the check-insert part): a missing or empty or already-seen nonce is
rejected; otherwise the nonce is recorded and the cache bound is enforced. -/
def consume (nonce : Option String) (used : List String) : Bool × List String :=
  match nonce with
  | none => (false, used)
  | some n =>
    if n = "" then (false, used)
    else if used.contains n then (false, used)
    else (true, evictOld (used ++ [n]))

/-- The used-nonce state after a sequence of consume calls. -/
def replayRun (calls : List String) (used : List String) : List String :=
  calls.foldl (fun u n => (consume (some n) u).snd) used

/-- Session-token validation for non-connect commands (service worker,
executeCommand handler): a missing token, an unknown-or-expired token, and
an origin mismatch each produce the handler's corresponding error response;
`none` means the token is accepted. -/
def validateSessionToken (sessionToken : Option String) (origin : String) (now : Nat)
    (tokens : List (String × SessionTokenInfo)) : Option String :=
  match sessionToken with
  | none => some "Session token required"
  | some tok =>
    if tok = "" then some "Session token required"
    else
      match lookupStr tokens tok with
      | none => some "Invalid or expired session token"
      | some info =>
        if info.expiresAt < now then some "Invalid or expired session token"
        else if info.origin ≠ origin then some "Session token origin mismatch"
        else none

/-- Outcome of the synchronous part of `requestPermission`: either an
immediate auto-allow, or escalation to the approval UI with a new pending
entry. -/
inductive PermissionOutcome where
  | autoAllowed
  | escalated (id : String)
deriving Repr, DecidableEq

/-- The two-level permission decision (service worker, `requestPermission`):
first the session-level grants, then the persistent policies, and only when
both fail a pending approval is created for the popup. -/
def requestPermission (req : PermissionRequest) (sessionId : String) (freshId : String)
    (st : SWState) : PermissionOutcome × SWState :=
  if isOriginGrantedForSession st.sessions sessionId req.targetOrigin then
    (.autoAllowed, st)
  else if isAllowed st.policies req then
    (.autoAllowed, st)
  else
    (.escalated freshId,
      { st with pendingPermissions :=
          st.pendingPermissions ++ [(freshId, ⟨freshId, req, sessionId⟩)] })

/-- A `permissionDecision` message from the approval popup. -/
structure DecisionMessage where
  permissionId : String
  allow : Bool
  remember : Bool
  sessionId : Option String
deriving Repr, DecidableEq

/-- Result of the `permissionDecision` handler. -/
inductive DecisionResult where
  | resolved (allow : Bool)
  | notFound
deriving Repr, DecidableEq

/-- The `permissionDecision` message handler: on allow it grants the target
origin for the sessionId carried by the message (when present) and writes a
persistent policy only when remember was selected; the pending entry is
always removed and the awaiting promise resolved with the decision. -/
def permissionDecision (msg : DecisionMessage) (st : SWState) : DecisionResult × SWState :=
  match lookupStr st.pendingPermissions msg.permissionId with
  | none => (.notFound, st)
  | some pending =>
    let st1 :=
      if msg.allow then
        let sessions1 :=
          match msg.sessionId with
          | some sid => grantOriginForSession st.sessions sid pending.request.targetOrigin
          | none => st.sessions
        let policies1 :=
          if msg.remember then grantPermission st.policies pending.request else st.policies
        { st with sessions := sessions1, policies := policies1 }
      else st
    (.resolved msg.allow,
      { st1 with pendingPermissions := mapDelete st1.pendingPermissions msg.permissionId })

/-- The 30-second timeout callback of `requestPermission`: if the entry is
still pending it is discarded and the wait is rejected with a timeout error. -/
def permissionTimeoutFire (pid : String) (st : SWState) : Option String × SWState :=
  if (lookupStr st.pendingPermissions pid).isSome then
    (some "Permission request timed out",
      { st with pendingPermissions := mapDelete st.pendingPermissions pid })
  else (none, st)

/-- Response payloads of the service worker handlers. -/
inductive Payload where
  | err (msg : String)
  | sessionCreated (sessionId : String) (token : String)
  | navigated (url : String) (tabId : Option Nat)
  | tabCreated (tabId : Option Nat) (url : String) (sessionId : String)
  | tabList (tabs : List Nat)
  | toolResult (tabId : Nat) (tool : String)
deriving Repr, DecidableEq

/-- The `createSession` message handler (service worker): the caller origin
is taken from the message payload itself — `message.callerOrigin` — which is
the only origin value this handler ever sees; the secure-origin gate,
the created session and the issued token are all based on it. -/
def createSessionHandler (callerOrigin : Option String) (freshSessionId freshToken : String)
    (now : Nat) (st : SWState) : Payload × SWState :=
  match callerOrigin with
  | none => (.err "Session creation rejected: callerOrigin is required.", st)
  | some co =>
    if co = "" then (.err "Session creation rejected: callerOrigin is required.", st)
    else if isSecureOrigin co then
      let session := createSession co freshSessionId now
      (.sessionCreated freshSessionId freshToken,
        { st with
            sessions := st.sessions ++ [session],
            sessionCallerOrigins := mapSet st.sessionCallerOrigins freshSessionId co,
            sessionTokens :=
              mapSet st.sessionTokens freshToken ⟨co, now, now + tokenLifetimeMs⟩ })
    else
      (.err ("Session creation rejected: Insecure origin \"" ++ co ++
        "\". Only HTTPS or localhost allowed."), st)

/-- The duck-typed `command` object inside an executeCommand message. -/
structure Command where
  type : String
  sessionId : Option String := none
  tabId : Option Nat := none
  tool : Option String := none
  url : Option String := none
  argsUrl : Option String := none
  argsElement : Option String := none
  argsRef : Option String := none
  argsText : Option String := none
deriving Repr, DecidableEq

/-- An inbound executeCommand message as forwarded by the content script;
`origin` is the transport-attested `event.origin` the content script
attached, never a payload field. -/
structure InboundMessage where
  command : Command
  origin : String
  nonce : Option String := none
  sessionToken : Option String := none
  requestId : Option String := none
deriving Repr, DecidableEq

/-- Behaviour of the external approval UI for an escalated request: an
explicit decision, a 30-second timeout, or a failure to open the popup. -/
inductive UIOutcome where
  | decided (allow : Bool) (remember : Bool)
  | timedOut
  | popupFailed
deriving Repr, DecidableEq

/-- A browser tab as returned by `chrome.tabs.get`. -/
structure TabInfo where
  id : Nat
  url : Option String
deriving Repr, DecidableEq

/-- The external environment of one executeCommand run: the clock, the fresh
random identifiers, the browser-tab API, URL parsing (`none` models a thrown
TypeError), the approval UI, and whether messaging the content script
succeeds. -/
structure Env where
  now : Nat
  freshToken : String
  freshSessionId : String
  freshPermissionId : String
  activeTab : Option Nat
  newTabId : Option Nat
  openTabs : List Nat
  tabs : Nat → Option TabInfo
  urlOrigin : String → Option String
  ui : UIOutcome
  sendOk : Bool

/-- Observable effects of one executeCommand run: the permission requests
passed to the negotiator, the execute-tool messages dispatched to the
content script, and the tabs created. -/
structure ExecTrace where
  permissionRequests : List PermissionRequest
  dispatchedTools : List (Nat × String)
  createdTabUrls : List String
deriving Repr, DecidableEq

/-- The empty trace. -/
def ExecTrace.empty : ExecTrace := ⟨[], [], []⟩

/-- Result of one executeCommand run. -/
structure ExecResult where
  payload : Payload
  state : SWState
  trace : ExecTrace
deriving Repr, DecidableEq

/-- The awaited result of a `requestPermission` promise inside
executeCommand. -/
inductive PermissionWait where
  | granted
  | denied
  | failed (msg : String)
deriving Repr, DecidableEq

/-- Awaiting `requestPermission`: an auto-allow resolves at once; an
escalated request is settled by the approval UI — an explicit decision goes
through the `permissionDecision` handler (the popup echoes the sessionId it
read via `getPendingPermission`, which is the pending entry's own), a
timeout fires the timeout callback, and a popup failure discards the entry
and rejects. -/
def awaitPermission (env : Env) (req : PermissionRequest) (sessionId : String)
    (st : SWState) : PermissionWait × SWState :=
  match requestPermission req sessionId env.freshPermissionId st with
  | (.autoAllowed, st1) => (.granted, st1)
  | (.escalated pid, st1) =>
    match env.ui with
    | .decided allow remember =>
      let st2 := (permissionDecision ⟨pid, allow, remember, some sessionId⟩ st1).snd
      (if allow then .granted else .denied, st2)
    | .timedOut =>
      ((.failed "Permission request timed out"), (permissionTimeoutFire pid st1).snd)
    | .popupFailed =>
      ((.failed "Failed to open permission popup"),
        { st1 with pendingPermissions := mapDelete st1.pendingPermissions pid })

/-- JS truthiness of an optional string field (undefined and "" are falsy). -/
def strOpt (s : Option String) : Option String :=
  match s with
  | some v => if v = "" then none else some v
  | none => none

/-- JS truthiness of an optional tab id (undefined and 0 are falsy). -/
def tabOpt (t : Option Nat) : Option Nat :=
  match t with
  | some v => if v = 0 then none else some v
  | none => none

/-- The correlation bookkeeping at the top of command processing:
`pendingRequests.set(requestId, ...)` followed by the one-hour prune. -/
def trackRequest (now : Nat) (origin : String) (requestId : Option String)
    (tabId : Option Nat) (pending : List (String × PendingRequest)) :
    List (String × PendingRequest) :=
  match strOpt requestId, tabOpt tabId with
  | some rid, some tid =>
    (mapSet pending rid ⟨origin, now, tid⟩).filter
      (fun p => decide (now - 3600000 ≤ p.snd.timestamp))
  | _, _ => pending

/-- The sensitive tools that require a permission decision before being
forwarded to the content script. -/
def sensitiveActions : List String := ["click", "type", "evaluate"]

/-- Forwarding a tool to the content script: `chrome.tabs.get` and the
expected-origin computation run first (a throw becomes the
failed-to-execute error), then the execute-tool message is dispatched. -/
def forwardTool (env : Env) (tool : String) (t : Nat) (st : SWState)
    (reqs : List PermissionRequest) : ExecResult :=
  match env.tabs t with
  | none =>
    ⟨.err ("Failed to execute tool \"" ++ tool ++ "\": No tab with id: " ++ toString t),
      st, ⟨reqs, [], []⟩⟩
  | some tab =>
    match strOpt tab.url with
    | none =>
      if env.sendOk then ⟨.toolResult t tool, st, ⟨reqs, [(t, tool)], []⟩⟩
      else ⟨.err ("Failed to execute tool \"" ++ tool ++ "\": messaging failed"),
        st, ⟨reqs, [(t, tool)], []⟩⟩
    | some u =>
      match env.urlOrigin u with
      | none =>
        ⟨.err ("Failed to execute tool \"" ++ tool ++ "\": Invalid URL"),
          st, ⟨reqs, [], []⟩⟩
      | some _ =>
        if env.sendOk then ⟨.toolResult t tool, st, ⟨reqs, [(t, tool)], []⟩⟩
        else ⟨.err ("Failed to execute tool \"" ++ tool ++ "\": messaging failed"),
          st, ⟨reqs, [(t, tool)], []⟩⟩

/-- Registering a freshly created tab with the session (`if (tab.id &&
sessionId)` after `chrome.tabs.create`). -/
def navAddCreatedTab (env : Env) (cmd : Command) (st1 : SWState) : SWState :=
  match env.newTabId, strOpt cmd.sessionId with
  | some tid, some sid => { st1 with sessions := addTabToSession st1.sessions sid tid }
  | _, _ => st1

/-- The navigate path that creates a new tab (no usable explicit tabId). -/
def navigateNewTab (env : Env) (origin : String) (cmd : Command) (st : SWState) :
    ExecResult :=
  match cmd.argsUrl.bind env.urlOrigin with
  | none => ⟨.err "Invalid URL", st, .empty⟩
  | some targetOrigin =>
    let req : PermissionRequest :=
      { action := "navigate", callerOrigin := origin, targetOrigin := targetOrigin,
        url := cmd.argsUrl }
    match awaitPermission env req ((strOpt cmd.sessionId).getD "default-session") st with
    | (.failed m, st1) => ⟨.err ("Permission error: " ++ m), st1, ⟨[req], [], []⟩⟩
    | (.denied, st1) =>
      ⟨.err ("Permission denied to navigate to: " ++ cmd.argsUrl.getD ""), st1,
        ⟨[req], [], []⟩⟩
    | (.granted, st1) =>
      ⟨.navigated (cmd.argsUrl.getD "") env.newTabId, navAddCreatedTab env cmd st1,
        ⟨[req], [], [cmd.argsUrl.getD ""]⟩⟩

/-- The navigate path on an already-resolved existing tab. -/
def navigateExistingTab (env : Env) (origin : String) (cmd : Command) (t : Nat)
    (st : SWState) : ExecResult :=
  match cmd.argsUrl.bind env.urlOrigin with
  | none => ⟨.err "Invalid URL", st, .empty⟩
  | some targetOrigin =>
    let req : PermissionRequest :=
      { action := "navigate", callerOrigin := origin, targetOrigin := targetOrigin,
        url := cmd.argsUrl }
    match awaitPermission env req ((strOpt cmd.sessionId).getD "default-session") st with
    | (.failed m, st1) => ⟨.err ("Permission error: " ++ m), st1, ⟨[req], [], []⟩⟩
    | (.denied, st1) =>
      ⟨.err ("Permission denied to navigate to: " ++ cmd.argsUrl.getD ""), st1,
        ⟨[req], [], []⟩⟩
    | (.granted, st1) =>
      ⟨.navigated (cmd.argsUrl.getD "") (some t), st1, ⟨[req], [], []⟩⟩

/-- The permission wait and forwarding for a sensitive tool once the
target origin is determined. -/
def sensitiveProceed (env : Env) (origin : String) (cmd : Command) (tool : String)
    (t : Nat) (st : SWState) (targetOrigin : String) : ExecResult :=
  let req : PermissionRequest :=
    { action := tool, callerOrigin := origin, targetOrigin := targetOrigin,
      element := cmd.argsElement, ref := cmd.argsRef, text := cmd.argsText }
  match awaitPermission env req ((strOpt cmd.sessionId).getD "default-session") st with
  | (.failed m, st1) => ⟨.err ("Permission error: " ++ m), st1, ⟨[req], [], []⟩⟩
  | (.denied, st1) =>
    ⟨.err ("Permission denied for action: " ++ tool), st1, ⟨[req], [], []⟩⟩
  | (.granted, st1) => forwardTool env tool t st1 [req]

/-- A sensitive tool on a resolved tab: `chrome.tabs.get` and the
target-origin computation run inside the try (a throw becomes a
permission error), then the permission wait, then forwarding. -/
def sensitiveExec (env : Env) (origin : String) (cmd : Command) (tool : String) (t : Nat)
    (st : SWState) : ExecResult :=
  match env.tabs t with
  | none => ⟨.err ("Permission error: No tab with id: " ++ toString t), st, .empty⟩
  | some tab =>
    match strOpt tab.url with
    | none => sensitiveProceed env origin cmd tool t st "unknown"
    | some u =>
      match env.urlOrigin u with
      | none => ⟨.err "Permission error: Invalid URL", st, .empty⟩
      | some targetOrigin => sensitiveProceed env origin cmd tool t st targetOrigin

/-- The per-tool dispatch once a tab is resolved: navigate on the existing
tab, the sensitive-tool permission path, or plain forwarding. -/
def execOnTab (env : Env) (origin : String) (cmd : Command) (tool : String) (t : Nat)
    (st : SWState) : ExecResult :=
  if tool = "navigate" then navigateExistingTab env origin cmd t st
  else if sensitiveActions.contains tool then sensitiveExec env origin cmd tool t st
  else forwardTool env tool t st []

/-- The tab the execute branch acts on: the explicit tabId unless it is
missing, 0 or 1, in which case the active tab is used. -/
def resolveTab (env : Env) (cmd : Command) : Option Nat :=
  if tabOpt cmd.tabId = none ∨ tabOpt cmd.tabId = some 1 then env.activeTab
  else tabOpt cmd.tabId

/-- The `execute` command branch: session existence check, the
navigate-new-tab special case, active-tab fallback, the tab-isolation
check, and the per-tool dispatch. -/
def execBranch (env : Env) (origin : String) (cmd : Command) (st : SWState) : ExecResult :=
  let tool := cmd.tool.getD ""
  let sidOpt := strOpt cmd.sessionId
  if sidOpt.isSome ∧ getSession st.sessions (sidOpt.getD "") = none then
    ⟨.err "Invalid session", st, .empty⟩
  else if tool = "navigate" ∧ (tabOpt cmd.tabId = none ∨ tabOpt cmd.tabId = some 1) then
    navigateNewTab env origin cmd st
  else
    match resolveTab env cmd, sidOpt with
    | some t, some sid =>
      if isTabInSession st.sessions sid t then execOnTab env origin cmd tool t st
      else
        ⟨.err ("Access denied: Tab " ++ toString t ++ " does not belong to this session"),
          st, .empty⟩
    | some t, none => execOnTab env origin cmd tool t st
    | none, _ => ⟨.err "No active tab found", st, .empty⟩

/-- Registering the tab created by the createTab branch with its session. -/
def createTabAdd (env : Env) (sid : String) (st1 : SWState) : SWState :=
  match env.newTabId with
  | some tid => { st1 with sessions := addTabToSession st1.sessions sid tid }
  | none => st1

/-- The `createTab` command branch. -/
def createTabBranch (env : Env) (origin : String) (cmd : Command) (st : SWState) :
    ExecResult :=
  match strOpt cmd.sessionId with
  | none => ⟨.err "Session ID required", st, .empty⟩
  | some sid =>
    match cmd.url.bind env.urlOrigin with
    | none => ⟨.err "Invalid URL", st, .empty⟩
    | some targetOrigin =>
      let req : PermissionRequest :=
        { action := "createTab", callerOrigin := origin, targetOrigin := targetOrigin,
          url := cmd.url }
      match awaitPermission env req sid st with
      | (.failed m, st1) => ⟨.err ("Permission error: " ++ m), st1, ⟨[req], [], []⟩⟩
      | (.denied, st1) =>
        ⟨.err ("Permission denied to open tab: " ++ cmd.url.getD ""), st1, ⟨[req], [], []⟩⟩
      | (.granted, st1) =>
        ⟨.tabCreated env.newTabId (cmd.url.getD "") sid, createTabAdd env sid st1,
          ⟨[req], [], [cmd.url.getD ""]⟩⟩

/-- The `listTabs` command branch. -/
def listTabsBranch (env : Env) (cmd : Command) (st : SWState) : ExecResult :=
  match strOpt cmd.sessionId with
  | none => ⟨.err "Session ID required", st, .empty⟩
  | some sid =>
    match getSession st.sessions sid with
    | none => ⟨.err "Invalid session", st, .empty⟩
    | some s => ⟨.tabList (env.openTabs.filter (fun t => s.tabIds.contains t)), st, .empty⟩

/-- Command processing after nonce and token checks have passed:
correlation bookkeeping, then dispatch on the command type. -/
def dispatchCommand (env : Env) (msg : InboundMessage) (st : SWState) : ExecResult :=
  let pr := trackRequest env.now msg.origin msg.requestId msg.command.tabId st.pendingRequests
  let st1 := { st with pendingRequests := pr }
  if msg.command.type = "createTab" then createTabBranch env msg.origin msg.command st1
  else if msg.command.type = "listTabs" then listTabsBranch env msg.command st1
  else if msg.command.type = "execute" then execBranch env msg.origin msg.command st1
  else ⟨.err "Unknown command type", st1, .empty⟩

/-- The full executeCommand handler of the service worker: replay guard,
then the bootstrap connect special case (secure-origin gated, issues a
session and a token bound to the transport-attested origin), then session
token validation for every other command, then command dispatch. -/
def executeCommand (env : Env) (msg : InboundMessage) (st : SWState) : ExecResult :=
  let rc := consume msg.nonce st.usedNonces
  if rc.fst then
    let st1 := { st with usedNonces := rc.snd }
    if msg.command.type = "connect" then
      if isSecureOrigin msg.origin then
        let session := createSession msg.origin env.freshSessionId env.now
        ⟨.sessionCreated env.freshSessionId env.freshToken,
          { st1 with
              sessions := st1.sessions ++ [session],
              sessionCallerOrigins :=
                mapSet st1.sessionCallerOrigins env.freshSessionId msg.origin,
              sessionTokens :=
                mapSet st1.sessionTokens env.freshToken
                  ⟨msg.origin, env.now, env.now + tokenLifetimeMs⟩ },
          .empty⟩
      else
        ⟨.err ("Insecure origin \"" ++ msg.origin ++ "\". Only HTTPS or localhost allowed."),
          st1, .empty⟩
    else
      match validateSessionToken msg.sessionToken msg.origin env.now st.sessionTokens with
      | some e => ⟨.err e, st1, .empty⟩
      | none => dispatchCommand env msg st1
  else ⟨.err "Invalid or reused nonce", st, .empty⟩

/-- A nonce used in the replay-guard analysis: i + 1 copies of the letter a. -/
def nonceName (i : Nat) : String := String.mk (List.replicate (i + 1) 'a')

/-- All nonces of `evictList` except the first. -/
def evictTail : List String := (List.range 9999).map (fun i => nonceName (i + 1))

/-- A run of 10000 distinct non-empty nonces, exactly filling the replay
cache. -/
def evictList : List String := (List.range 10000).map nonceName

/-- A token store holding a single expired token, for the validation
analysis. -/
def c3Tokens : List (String × SessionTokenInfo) :=
  [("tokE", ⟨"https://app.example", 0, 100⟩)]

/-- A concrete environment for the witness evaluations. -/
def envW : Env :=
  { now := 1000, freshToken := "tokNew", freshSessionId := "s9",
    freshPermissionId := "p9", activeTab := some 7, newTabId := some 9, openTabs := [7],
    tabs := fun t => if t = 7 then some ⟨7, some "https://t.example/page"⟩ else none,
    urlOrigin := fun u =>
      if u = "https://t.example/page" then some "https://t.example" else none,
    ui := .decided true false, sendOk := true }

/-- A concrete service-worker state with one session owning tab 7 and one
valid token, for the witness evaluations. -/
def stW : SWState :=
  { sessions := [⟨"s1", "https://app.example", 0, [7], []⟩],
    sessionCallerOrigins := [("s1", "https://app.example")],
    usedNonces := [],
    sessionTokens := [("tok1", ⟨"https://app.example", 0, 86400000⟩)],
    pendingRequests := [], pendingPermissions := [], policies := [] }

/-- A concrete permission request for the witness evaluations. -/
def reqW : PermissionRequest :=
  { action := "navigate", callerOrigin := "https://app.example",
    targetOrigin := "https://t.example" }

/-- A state whose only session has an auto-granted target origin. -/
def stC5 : SWState :=
  { stW with sessions := [⟨"s1", "https://app.example", 0, [7], ["https://t.example"]⟩] }

/-- A state with one unresolved pending approval. -/
def stC7 : SWState :=
  { stW with pendingPermissions := [("p1", ⟨"p1", reqW, "s1"⟩)] }

/-- A concrete bootstrap connect message. -/
def msgConn : InboundMessage :=
  { command := { type := "connect" }, origin := "https://app.example", nonce := some "nc" }

/-- A concrete execute command that targets tab 5, which session s1 does
not own. -/
def msgC2 : InboundMessage :=
  { command :=
      { type := "execute", sessionId := some "s1", tabId := some 5,
        tool := some "snapshot" },
    origin := "https://app.example", nonce := some "n2", sessionToken := some "tok1" }

/-- A concrete execute command running the snapshot tool on owned tab 7. -/
def msgC10 : InboundMessage :=
  { command :=
      { type := "execute", sessionId := some "s1", tabId := some 7,
        tool := some "snapshot" },
    origin := "https://app.example", nonce := some "n4", sessionToken := some "tok1" }


end Bridge

namespace Bridge

theorem contains_decide (l : List String) (a : String) : l.contains a = decide (a ∈ l) :=
  List.elem_eq_mem a l

theorem lookupStr_mapSet_self {α : Type} (l : List (String × α)) (k : String) (v : α) :
    lookupStr (mapSet l k v) k = some v := by
  unfold mapSet
  split
  next h =>
    unfold lookupStr
    induction l with
    | nil => simp at h
    | cons p t ih =>
      simp only [List.find?, List.map_cons]
      by_cases hp : (p.fst == k) = true
      · simp [hp, List.find?]
      · simp only [hp, if_neg, Bool.false_eq_true, not_false_eq_true, ite_false]
        simp only [List.find?_cons, hp, Bool.false_eq_true, if_false] at *
        apply ih
        simpa [List.find?_cons, hp] using h
  next h =>
    unfold lookupStr
    induction l with
    | nil => simp
    | cons p t ih =>
      simp only [List.find?_isSome] at h
      push_neg at h
      have hp : ¬ (p.fst == k) = true := h p (by simp)
      simp only [List.cons_append, List.find?_cons, hp, Bool.false_eq_true, if_false]
      apply ih
      simp only [List.find?_isSome]
      push_neg
      intro x hx
      exact h x (by simp [hx])

theorem lookupStr_mapDelete_self {α : Type} (l : List (String × α)) (k : String) :
    lookupStr (mapDelete l k) k = none := by
  unfold lookupStr mapDelete
  rw [show ((l.filter (fun p => p.fst != k)).find? (fun p => p.fst == k)) = none from ?_]
  · rfl
  · rw [List.find?_eq_none]
    intro x hx
    have hkeep := (List.mem_filter.mp hx).2
    exact fun hc => by simp [bne, hc] at hkeep

theorem lookupStr_append_single_isSome {α : Type} (l : List (String × α)) (k : String)
    (v : α) : (lookupStr (l ++ [(k, v)]) k).isSome = true := by
  unfold lookupStr
  induction l with
  | nil => simp [List.find?]
  | cons p t ih =>
    by_cases hp : (p.fst == k) = true
    · simp [List.find?_cons, hp]
    · rw [List.cons_append, List.find?_cons]
      rw [Bool.not_eq_true] at hp
      rw [hp]
      exact ih

theorem nonceCacheLimit_pos : 1 ≤ nonceCacheLimit := by
  unfold nonceCacheLimit
  omega

theorem evictOld_of_le (l : List String) (h : l.length ≤ nonceCacheLimit) :
    evictOld l = l := by
  unfold evictOld
  rw [if_neg (by omega)]

theorem evictOld_full (l : List String) (h : l.length = nonceCacheLimit + 1) :
    evictOld l = l.tail := by
  unfold evictOld
  rw [if_pos (by omega), h]
  simp [List.drop_one]

theorem consume_mem (n : String) (used : List String) (h : used.contains n = true) :
    consume (some n) used = (false, used) := by
  have hm : n ∈ used := by
    rw [contains_decide] at h
    exact of_decide_eq_true h
  by_cases h1 : n = "" <;> simp [consume, h1, hm]

theorem consume_fresh (n : String) (used : List String) (h1 : n ≠ "")
    (h2 : used.contains n = false) :
    consume (some n) used = (true, evictOld (used ++ [n])) := by
  have hm : n ∉ used := by
    rw [contains_decide] at h2
    exact of_decide_eq_false h2
  simp [consume, h1, hm]

theorem consume_fresh_no_evict (n : String) (used : List String) (h1 : n ≠ "")
    (h2 : used.contains n = false) (h3 : used.length + 1 ≤ nonceCacheLimit) :
    consume (some n) used = (true, used ++ [n]) := by
  rw [consume_fresh n used h1 h2, evictOld_of_le]
  simp only [List.length_append, List.length_cons, List.length_nil]
  omega

theorem consume_true_iff (n : String) (used : List String) :
    (consume (some n) used).fst = true ↔ (n ≠ "" ∧ used.contains n = false) := by
  by_cases h1 : n = ""
  · simp [consume, h1]
  · by_cases hm : n ∈ used
    · have hc : used.contains n = true := by
        rw [contains_decide]
        exact decide_eq_true hm
      simp [consume, h1, hm, hc]
    · have hc : used.contains n = false := by
        rw [contains_decide]
        exact decide_eq_false hm
      simp [consume, h1, hm, hc]

theorem consume_inserts (n : String) (used : List String)
    (h : (consume (some n) used).fst = true) :
    (consume (some n) used).snd.contains n = true := by
  obtain ⟨h1, h2⟩ := (consume_true_iff n used).mp h
  rw [consume_fresh n used h1 h2]
  rw [contains_decide, decide_eq_true_iff]
  unfold evictOld
  split
  · rw [List.drop_append_of_le_length (by
      simp only [List.length_append, List.length_cons, List.length_nil]
      have := nonceCacheLimit_pos
      omega)]
    simp
  · simp

theorem consume_false_state (n : String) (used : List String)
    (h : (consume (some n) used).fst = false) :
    consume (some n) used = (false, used) := by
  have hne : ¬ (n ≠ "" ∧ used.contains n = false) := by
    intro hh
    rw [(consume_true_iff n used).mpr hh] at h
    exact Bool.true_eq_false.mp h
  by_cases h1 : n = ""
  · simp [consume, h1]
  · have h2 : used.contains n = true := by
      rcases Bool.eq_false_or_eq_true (used.contains n) with ht | hf
      · exact ht
      · exact absurd ⟨h1, hf⟩ hne
    exact consume_mem n used h2

theorem consume_immediate_replay (n : String) (used : List String) :
    (consume (some n) (consume (some n) used).snd).fst = false := by
  rcases Bool.eq_false_or_eq_true (consume (some n) used).fst with ht | hf
  · have hc := consume_inserts n used ht
    rw [consume_mem n _ hc]
  · rw [consume_false_state n used hf]
    exact hf

theorem replayRun_fresh (calls : List String) (used : List String)
    (hne : ∀ x ∈ calls, x ≠ "") (hnd : (used ++ calls).Nodup)
    (hlen : used.length + calls.length ≤ nonceCacheLimit) :
    replayRun calls used = used ++ calls := by
  induction calls generalizing used with
  | nil => simp [replayRun]
  | cons x xs ih =>
    have hx : x ≠ "" := hne x (by simp)
    have hdisj := (List.nodup_append.mp hnd).2.2
    have hxnot : used.contains x = false := by
      rw [contains_decide, decide_eq_false_iff_not]
      intro hmem
      exact hdisj hmem (by simp)
    have hstep : consume (some x) used = (true, used ++ [x]) := by
      apply consume_fresh_no_evict x used hx hxnot
      simp only [List.length_cons] at hlen
      omega
    have hrw : replayRun (x :: xs) used = replayRun xs (used ++ [x]) := by
      simp [replayRun, List.foldl_cons, hstep]
    rw [hrw, ih (used ++ [x]) (fun y hy => hne y (by simp [hy]))
      (by rwa [List.append_cons] at hnd)
      (by simp only [List.length_append, List.length_cons, List.length_nil] at hlen ⊢; omega)]
    simp

theorem nonceName_injective : Function.Injective nonceName := by
  intro i j h
  have hd : List.replicate (i + 1) 'a' = List.replicate (j + 1) 'a' := by
    have := congrArg String.data h
    simpa [nonceName] using this
  have := congrArg List.length hd
  simpa using this

theorem nonceName_ne_empty (i : Nat) : nonceName i ≠ "" := by
  intro h
  have hd := congrArg String.data h
  simp [nonceName] at hd

theorem nonceName_ne_b (i : Nat) : nonceName i ≠ "b" := by
  intro h
  have hd := congrArg String.data h
  simp [nonceName, List.replicate_succ] at hd

theorem evictList_nodup : evictList.Nodup :=
  (List.nodup_range 10000).map nonceName_injective

theorem evictList_eq_cons : evictList = nonceName 0 :: evictTail := by
  unfold evictList evictTail
  rw [show (10000 : Nat) = 9999 + 1 from rfl, List.range_succ_eq_map, List.map_cons,
    List.map_map]
  rfl

theorem evictList_length : evictList.length = 10000 := by
  simp [evictList]

theorem mem_evictList_ne_b (x : String) (hx : x ∈ evictList) : x ≠ "b" := by
  obtain ⟨i, _, hi⟩ := List.mem_map.mp hx
  rw [← hi]
  exact nonceName_ne_b i

theorem mem_evictList_ne_empty (x : String) (hx : x ∈ evictList) : x ≠ "" := by
  obtain ⟨i, _, hi⟩ := List.mem_map.mp hx
  rw [← hi]
  exact nonceName_ne_empty i

theorem replayRun_evictList : replayRun evictList [] = evictList := by
  have := replayRun_fresh evictList [] (fun x hx => mem_evictList_ne_empty x hx)
    (by simpa using evictList_nodup)
    (by simp [evictList_length, nonceCacheLimit])
  simpa using this

theorem consume_b_evicts :
    consume (some "b") evictList = (true, evictTail ++ ["b"]) := by
  have hb : evictList.contains "b" = false := by
    rw [contains_decide, decide_eq_false_iff_not]
    intro hmem
    exact mem_evictList_ne_b "b" hmem rfl
  rw [consume_fresh "b" evictList (by decide) hb]
  rw [evictOld_full _ (by
    simp only [List.length_append, List.length_cons, List.length_nil, evictList_length]
    rfl)]
  rw [evictList_eq_cons]
  rfl

theorem validateSessionToken_ok (t origin : String) (now : Nat)
    (tokens : List (String × SessionTokenInfo)) (info : SessionTokenInfo)
    (ht : t ≠ "") (hl : lookupStr tokens t = some info) (hexp : ¬ info.expiresAt < now)
    (ho : info.origin = origin) :
    validateSessionToken (some t) origin now tokens = none := by
  simp [validateSessionToken, ht, hl, hexp, ho]

theorem validateSessionToken_expired (t origin : String) (now : Nat)
    (tokens : List (String × SessionTokenInfo)) (info : SessionTokenInfo)
    (ht : t ≠ "") (hl : lookupStr tokens t = some info) (hexp : info.expiresAt < now) :
    validateSessionToken (some t) origin now tokens
      = some "Invalid or expired session token" := by
  simp [validateSessionToken, ht, hl, hexp]

theorem requestPermission_escalates (req : PermissionRequest) (sid fid : String)
    (st : SWState)
    (h1 : isOriginGrantedForSession st.sessions sid req.targetOrigin = false)
    (h2 : isAllowed st.policies req = false) :
    requestPermission req sid fid st =
      (.escalated fid,
        { st with pendingPermissions :=
            st.pendingPermissions ++ [(fid, ⟨fid, req, sid⟩)] }) := by
  unfold requestPermission
  rw [if_neg (by simp [h1]), if_neg (by simp [h2])]

theorem awaitPermission_timeout (env : Env) (req : PermissionRequest) (sid : String)
    (st : SWState)
    (h1 : isOriginGrantedForSession st.sessions sid req.targetOrigin = false)
    (h2 : isAllowed st.policies req = false) (hui : env.ui = UIOutcome.timedOut) :
    (awaitPermission env req sid st).fst = .failed "Permission request timed out" ∧
    lookupStr (awaitPermission env req sid st).snd.pendingPermissions env.freshPermissionId
      = none := by
  unfold awaitPermission
  rw [requestPermission_escalates req sid env.freshPermissionId st h1 h2, hui]
  refine ⟨rfl, ?_⟩
  show lookupStr (permissionTimeoutFire env.freshPermissionId _).snd.pendingPermissions
    env.freshPermissionId = none
  unfold permissionTimeoutFire
  rw [if_pos (lookupStr_append_single_isSome st.pendingPermissions env.freshPermissionId _)]
  exact lookupStr_mapDelete_self _ _

theorem executeCommand_nonce_reject (env : Env) (msg : InboundMessage) (st : SWState)
    (hn : (consume msg.nonce st.usedNonces).fst = false) :
    executeCommand env msg st = ⟨.err "Invalid or reused nonce", st, ExecTrace.empty⟩ := by
  simp [executeCommand, hn]

theorem executeCommand_connect (env : Env) (msg : InboundMessage) (st : SWState)
    (hn : (consume msg.nonce st.usedNonces).fst = true)
    (hc : msg.command.type = "connect") (hsec : isSecureOrigin msg.origin = true) :
    executeCommand env msg st =
      ⟨.sessionCreated env.freshSessionId env.freshToken,
        { st with
            usedNonces := (consume msg.nonce st.usedNonces).snd,
            sessions := st.sessions ++ [createSession msg.origin env.freshSessionId env.now],
            sessionCallerOrigins :=
              mapSet st.sessionCallerOrigins env.freshSessionId msg.origin,
            sessionTokens := mapSet st.sessionTokens env.freshToken
              ⟨msg.origin, env.now, env.now + tokenLifetimeMs⟩ },
        ExecTrace.empty⟩ := by
  simp [executeCommand, hn, hc, hsec]

theorem executeCommand_connect_insecure (env : Env) (msg : InboundMessage) (st : SWState)
    (hn : (consume msg.nonce st.usedNonces).fst = true)
    (hc : msg.command.type = "connect") (hsec : isSecureOrigin msg.origin = false) :
    executeCommand env msg st =
      ⟨.err ("Insecure origin \"" ++ msg.origin ++ "\". Only HTTPS or localhost allowed."),
        { st with usedNonces := (consume msg.nonce st.usedNonces).snd },
        ExecTrace.empty⟩ := by
  simp [executeCommand, hn, hc, hsec]

theorem executeCommand_token_reject (env : Env) (msg : InboundMessage) (st : SWState)
    (e : String)
    (hn : (consume msg.nonce st.usedNonces).fst = true)
    (hc : msg.command.type ≠ "connect")
    (htok : validateSessionToken msg.sessionToken msg.origin env.now st.sessionTokens
      = some e) :
    executeCommand env msg st =
      ⟨.err e, { st with usedNonces := (consume msg.nonce st.usedNonces).snd },
        ExecTrace.empty⟩ := by
  simp [executeCommand, hn, hc, htok]

theorem executeCommand_dispatch (env : Env) (msg : InboundMessage) (st : SWState)
    (hn : (consume msg.nonce st.usedNonces).fst = true)
    (hc : msg.command.type ≠ "connect")
    (htok : validateSessionToken msg.sessionToken msg.origin env.now st.sessionTokens
      = none) :
    executeCommand env msg st =
      dispatchCommand env msg { st with usedNonces := (consume msg.nonce st.usedNonces).snd }
      := by
  simp [executeCommand, hn, hc, htok]

/-- C1. For every inbound command, every authorization decision must use
only the transport-attested sender origin of the message, never a
payload-declared origin. The createSession handler violates this: its only
origin input is the payload field `message.callerOrigin`, evaluated here at
the failing input — the spoofed secure payload origin passes the gate and is
bound to the created session and the issued token, while the actual sender
origin (which the handler never receives) is insecure and would have been
refused. -/
theorem c1_createSession_trusts_payload_origin :
    (createSessionHandler (some "https://evil.example") "sidX" "tokX" 0 SWState.empty).fst
      = Payload.sessionCreated "sidX" "tokX" ∧
    lookupStr (createSessionHandler (some "https://evil.example") "sidX" "tokX" 0
        SWState.empty).snd.sessionTokens "tokX"
      = some ⟨"https://evil.example", 0, tokenLifetimeMs⟩ ∧
    getSession (createSessionHandler (some "https://evil.example") "sidX" "tokX" 0
        SWState.empty).snd.sessions "sidX"
      = some ⟨"sidX", "https://evil.example", 0, [], []⟩ ∧
    isSecureOrigin "http://attacker.example" = false := by
  decide

/-- C3, counterexample. The claim requires distinct error kinds TokenInvalid
(token not found) and TokenExpired (now past expiresAt); the handler
collapses both causes into one identical error response, shown here at two
concrete inputs with different causes: "tokU" is absent from the store while
"tokE" is present but expired. -/
theorem c3_counterexample_merged_error :
    validateSessionToken (some "tokU") "https://app.example" 200 c3Tokens
      = validateSessionToken (some "tokE") "https://app.example" 200 c3Tokens ∧
    validateSessionToken (some "tokU") "https://app.example" 200 c3Tokens
      = some "Invalid or expired session token" ∧
    lookupStr c3Tokens "tokU" = none ∧
    (lookupStr c3Tokens "tokE").isSome = true := by
  decide

/-- C3, amended. Session-token validation fails with "Session token
required" when the token is absent, with the single combined error
"Invalid or expired session token" when the token is not found or now is
past expiresAt (the code does not distinguish these two causes), and with
"Session token origin mismatch" when the stored origin differs from the
authenticated origin; it succeeds iff none of these hold. -/
theorem c3_amended_token_validation (tok : Option String) (origin : String) (now : Nat)
    (tokens : List (String × SessionTokenInfo)) :
    ((tok = none ∨ tok = some "") →
      validateSessionToken tok origin now tokens = some "Session token required") ∧
    (∀ t, tok = some t → t ≠ "" → lookupStr tokens t = none →
      validateSessionToken tok origin now tokens
        = some "Invalid or expired session token") ∧
    (∀ t info, tok = some t → t ≠ "" → lookupStr tokens t = some info →
      info.expiresAt < now →
      validateSessionToken tok origin now tokens
        = some "Invalid or expired session token") ∧
    (∀ t info, tok = some t → t ≠ "" → lookupStr tokens t = some info →
      ¬ info.expiresAt < now → info.origin ≠ origin →
      validateSessionToken tok origin now tokens = some "Session token origin mismatch") ∧
    (validateSessionToken tok origin now tokens = none ↔
      ∃ t info, tok = some t ∧ t ≠ "" ∧ lookupStr tokens t = some info ∧
        ¬ info.expiresAt < now ∧ info.origin = origin) := by
  refine ⟨?_, ?_, ?_, ?_, ?_⟩
  · rintro (rfl | rfl) <;> simp [validateSessionToken]
  · rintro t rfl ht hl
    simp [validateSessionToken, ht, hl]
  · rintro t info rfl ht hl hexp
    simp [validateSessionToken, ht, hl, hexp]
  · rintro t info rfl ht hl hexp horig
    simp [validateSessionToken, ht, hl, hexp, horig]
  · constructor
    · intro hok
      match htok : tok with
      | none => simp [validateSessionToken] at hok
      | some t =>
        by_cases ht : t = ""
        · simp [validateSessionToken, ht] at hok
        · match hl : lookupStr tokens t with
          | none => simp [validateSessionToken, ht, hl] at hok
          | some info =>
            by_cases hexp : info.expiresAt < now
            · simp [validateSessionToken, ht, hl, hexp] at hok
            · by_cases horig : info.origin = origin
              · exact ⟨t, info, rfl, ht, hl, hexp, horig⟩
              · simp [validateSessionToken, ht, hl, hexp, horig] at hok
    · rintro ⟨t, info, rfl, ht, hl, hexp, horig⟩
      simp [validateSessionToken, ht, hl, hexp, horig]

/-- C3, witness for the amended claim at a concrete input: an unknown token
produces the combined invalid-or-expired error. -/
theorem c3_amended_witness :
    validateSessionToken (some "tokU") "https://app.example" 5 [] =
      some "Invalid or expired session token" :=
  (c3_amended_token_validation (some "tokU") "https://app.example" 5 []).2.1 "tokU" rfl
    (by decide) (by decide)

/-- C5. The permission decision checks the session-level grant first, and if
it holds resolves allow immediately with state untouched (no pending
approval for the UI, no policy write); otherwise it checks the persistent
policy store, and if that allows resolves allow immediately with state
untouched; only when both checks fail is a pending approval created and
surfaced to the approval UI. -/
theorem c5_two_level_decision (req : PermissionRequest) (sid fid : String) (st : SWState) :
    (isOriginGrantedForSession st.sessions sid req.targetOrigin = true →
      requestPermission req sid fid st = (.autoAllowed, st)) ∧
    (isOriginGrantedForSession st.sessions sid req.targetOrigin = false →
      isAllowed st.policies req = true →
      requestPermission req sid fid st = (.autoAllowed, st)) ∧
    (isOriginGrantedForSession st.sessions sid req.targetOrigin = false →
      isAllowed st.policies req = false →
      requestPermission req sid fid st =
        (.escalated fid,
          { st with pendingPermissions :=
              st.pendingPermissions ++ [(fid, ⟨fid, req, sid⟩)] })) := by
  refine ⟨fun h1 => ?_, fun h1 h2 => ?_, fun h1 h2 => ?_⟩
  · unfold requestPermission
    rw [if_pos (by simp [h1])]
  · unfold requestPermission
    rw [if_neg (by simp [h1]), if_pos (by simp [h2])]
  · exact requestPermission_escalates req sid fid st h1 h2

/-- C5, witness at a concrete state whose session has the target origin
auto-granted: the decision is an immediate allow with the state untouched. -/
theorem c5_witness :
    requestPermission reqW "s1" "p1" stC5 = (PermissionOutcome.autoAllowed, stC5) :=
  (c5_two_level_decision reqW "s1" "p1" stC5).1 (by decide)

/-- C7. A pending approval with no user decision within the 30000 ms timeout
resolves as a denial carrying the timeout error and its entry is removed
from the pending set: firing the timeout on any state still holding the
entry discards it and rejects the wait, and inside the command pipeline an
escalated permission whose UI times out resolves to the failed timeout
outcome (surfaced as a permission-error denial) with the pending entry
gone — the wait never remains pending. -/
theorem c7_timeout_resolves_denial (pid : String) (st : SWState) (env : Env)
    (req : PermissionRequest) (sid : String) (st2 : SWState)
    (hp : (lookupStr st.pendingPermissions pid).isSome = true)
    (h1 : isOriginGrantedForSession st2.sessions sid req.targetOrigin = false)
    (h2 : isAllowed st2.policies req = false) (hui : env.ui = UIOutcome.timedOut) :
    (permissionTimeoutFire pid st).fst = some "Permission request timed out" ∧
    lookupStr (permissionTimeoutFire pid st).snd.pendingPermissions pid = none ∧
    (awaitPermission env req sid st2).fst
      = PermissionWait.failed "Permission request timed out" ∧
    lookupStr (awaitPermission env req sid st2).snd.pendingPermissions env.freshPermissionId
      = none ∧
    permissionTimeoutMs = 30000 := by
  have haw := awaitPermission_timeout env req sid st2 h1 h2 hui
  refine ⟨?_, ?_, haw.1, haw.2, rfl⟩
  · unfold permissionTimeoutFire
    rw [if_pos hp]
  · unfold permissionTimeoutFire
    rw [if_pos hp]
    exact lookupStr_mapDelete_self _ _

/-- C7, witness at a concrete state with one pending approval and a timing
out approval UI. -/
theorem c7_witness :
    (permissionTimeoutFire "p1" stC7).fst = some "Permission request timed out" ∧
    lookupStr (permissionTimeoutFire "p1" stC7).snd.pendingPermissions "p1" = none := by
  have h := c7_timeout_resolves_denial "p1" stC7 { envW with ui := .timedOut } reqW "s1" stW
    (by decide) (by decide) (by decide) rfl
  exact ⟨h.1, h.2.1⟩

/-- C9. A token issued at time t0 records expiresAt as t0 plus 24 hours (the
connect branch stores exactly this lifetime for the issued token), validates
successfully at t0 + 23h59m, and fails at t0 + 24h1m with the handler's
expiry error (the code folds the TokenExpired cause into its combined
invalid-or-expired response; the token is present in the store, so expiry is
the failing check). -/
theorem c9_token_lifetime (t0 : Nat) (origin tok : String)
    (tokens : List (String × SessionTokenInfo)) (htok : tok ≠ "")
    (h : lookupStr tokens tok = some ⟨origin, t0, t0 + tokenLifetimeMs⟩)
    (env : Env) (msg : InboundMessage) (st : SWState)
    (hn : (consume msg.nonce st.usedNonces).fst = true)
    (hc : msg.command.type = "connect") (hsec : isSecureOrigin msg.origin = true) :
    tokenLifetimeMs = 24 * 60 * 60 * 1000 ∧
    lookupStr (executeCommand env msg st).state.sessionTokens env.freshToken
      = some ⟨msg.origin, env.now, env.now + tokenLifetimeMs⟩ ∧
    validateSessionToken (some tok) origin (t0 + 86340000) tokens = none ∧
    validateSessionToken (some tok) origin (t0 + 86460000) tokens
      = some "Invalid or expired session token" := by
  refine ⟨rfl, ?_, ?_, ?_⟩
  · rw [executeCommand_connect env msg st hn hc hsec]
    exact lookupStr_mapSet_self _ _ _
  · exact validateSessionToken_ok tok origin (t0 + 86340000) tokens
      ⟨origin, t0, t0 + tokenLifetimeMs⟩ htok h
      (by show ¬ t0 + tokenLifetimeMs < t0 + 86340000; unfold tokenLifetimeMs; omega) rfl
  · exact validateSessionToken_expired tok origin (t0 + 86460000) tokens
      ⟨origin, t0, t0 + tokenLifetimeMs⟩ htok h
      (by show t0 + tokenLifetimeMs < t0 + 86460000; unfold tokenLifetimeMs; omega)

/-- C8, amended. For every nonce, consume returns true iff the nonce is
non-empty and not currently in the bounded used-set; a successful consume
inserts the nonce, an immediately repeated consume of the same nonce
returns false, and a missing nonce always returns false; a rejected nonce
causes the whole request to be rejected with the replay error and no other
processing. Exactly-once holds only while the nonce remains cached: once
more than 10000 newer nonces have been inserted the entry is evicted and
the same nonce can be accepted again (see the counterexample). -/
theorem c8_amended_replay_guard :
    (∀ used, consume none used = (false, used)) ∧
    (∀ n used, ((consume (some n) used).fst = true ↔ (n ≠ "" ∧ used.contains n = false))) ∧
    (∀ n used, (consume (some n) used).fst = true →
      (consume (some n) used).snd.contains n = true) ∧
    (∀ n used, (consume (some n) (consume (some n) used).snd).fst = false) ∧
    (∀ env msg st, (consume msg.nonce st.usedNonces).fst = false →
      executeCommand env msg st
        = ⟨Payload.err "Invalid or reused nonce", st, ExecTrace.empty⟩) :=
  ⟨fun _ => rfl, consume_true_iff, consume_inserts, consume_immediate_replay,
    fun env msg st hn => executeCommand_nonce_reject env msg st hn⟩

/-- C8, witness: a fresh nonce is accepted and recorded. -/
theorem c8_amended_witness :
    (consume (some "n1") []).snd.contains "n1" = true :=
  c8_amended_replay_guard.2.2.1 "n1" [] (by decide)

/-- C8, counterexample. The claim says consume returns true exactly once per
nonce across the process lifetime and that every subsequent call with the
same nonce returns false. In the run below the nonce nonceName 0 is consumed
first (it is the head of evictList, and consuming it from the empty state
returns true); after the remaining 9999 distinct nonces of evictList and
then "b" are consumed, the eviction policy has dropped nonceName 0, and a
subsequent consume of nonceName 0 returns true a second time. -/
theorem c8_counterexample_eviction_replay :
    evictList.head? = some (nonceName 0) ∧
    (consume (some (nonceName 0)) []).fst = true ∧
    (consume (some (nonceName 0))
      (consume (some "b") (replayRun evictList [])).snd).fst = true := by
  refine ⟨?_, ?_, ?_⟩
  · rw [evictList_eq_cons]
    rfl
  · exact (consume_true_iff _ _).mpr ⟨nonceName_ne_empty 0, rfl⟩
  · rw [replayRun_evictList, consume_b_evicts]
    have hnd : (nonceName 0 :: evictTail).Nodup := by
      rw [← evictList_eq_cons]
      exact evictList_nodup
    have h0 : nonceName 0 ∉ evictTail := (List.nodup_cons.mp hnd).1
    have hc : (evictTail ++ ["b"]).contains (nonceName 0) = false := by
      rw [contains_decide, decide_eq_false_iff_not]
      intro hmem
      rcases List.mem_append.mp hmem with h | h
      · exact h0 h
      · simp only [List.mem_singleton] at h
        exact nonceName_ne_b 0 h
    exact (consume_true_iff _ _).mpr ⟨nonceName_ne_empty 0, hc⟩

theorem requestPermission_policies (req : PermissionRequest) (sid fid : String)
    (st : SWState) : (requestPermission req sid fid st).snd.policies = st.policies := by
  unfold requestPermission
  split
  · rfl
  · split <;> rfl

theorem createSessionHandler_policies (co : Option String) (fs ft : String) (n : Nat)
    (st : SWState) : (createSessionHandler co fs ft n st).snd.policies = st.policies := by
  unfold createSessionHandler
  rcases co with _ | c
  · rfl
  · by_cases h : c = ""
    · simp [h]
    · by_cases hs : isSecureOrigin c = true <;> simp [h, hs]

theorem permissionTimeoutFire_policies (pid : String) (st : SWState) :
    (permissionTimeoutFire pid st).snd.policies = st.policies := by
  unfold permissionTimeoutFire
  split <;> rfl

theorem permissionDecision_policies_unless_remember (msg : DecisionMessage) (st : SWState)
    (h : msg.allow = false ∨ msg.remember = false) :
    (permissionDecision msg st).snd.policies = st.policies := by
  unfold permissionDecision
  rcases hl : lookupStr st.pendingPermissions msg.permissionId with _ | p
  · rfl
  · rcases h with h | h
    · simp [h]
    · by_cases ha : msg.allow = true <;> simp [ha, h]

theorem awaitPermission_policies (env : Env) (req : PermissionRequest) (sid : String)
    (st : SWState) :
    (awaitPermission env req sid st).snd.policies = st.policies ∨
      env.ui = UIOutcome.decided true true := by
  unfold awaitPermission
  rcases hrp : requestPermission req sid env.freshPermissionId st with ⟨out, st1⟩
  have hst1 : st1.policies = st.policies := by
    have h := requestPermission_policies req sid env.freshPermissionId st
    rw [hrp] at h
    exact h
  cases out with
  | autoAllowed =>
    left
    simpa using hst1
  | escalated pid =>
    rcases hui : env.ui with ⟨a, r⟩ | _ | _
    · by_cases har : a = true ∧ r = true
      · right
        rw [har.1, har.2]
      · left
        have hd := permissionDecision_policies_unless_remember
          ⟨pid, a, r, some sid⟩ st1 (by
            rcases Bool.eq_false_or_eq_true a with ha | ha
            · right
              rcases Bool.eq_false_or_eq_true r with hr | hr
              · exact absurd ⟨ha, hr⟩ har
              · exact hr
            · exact Or.inl ha)
        simp only [hui]
        rw [hd]
        exact hst1
    · left
      simp only [hui]
      rw [permissionTimeoutFire_policies]
      exact hst1
    · left
      simp only [hui]
      exact hst1

theorem isOriginGranted_grant (ss : List Session) (sid o : String)
    (hs : (getSession ss sid).isSome = true) :
    isOriginGrantedForSession (grantOriginForSession ss sid o) sid o = true := by
  rcases hfind : getSession ss sid with _ | s
  · rw [hfind] at hs
    simp at hs
  · have hfind2 : ss.find? (fun s0 => s0.sessionId == sid) = some s := hfind
    have hmatch : (s.sessionId == sid) = true := by
      have hm := List.find?_some hfind2
      simpa using hm
    unfold isOriginGrantedForSession grantOriginForSession getSession
    rw [List.find?_map]
    have hcomp : ((fun s0 : Session => s0.sessionId == sid) ∘ (fun s0 : Session =>
        if s0.sessionId == sid then
          { s0 with grantedOrigins :=
              if s0.grantedOrigins.contains o then s0.grantedOrigins
              else s0.grantedOrigins ++ [o] }
        else s0)) = fun s0 : Session => s0.sessionId == sid := by
      funext s0
      by_cases h0 : (s0.sessionId == sid) = true <;> simp [Function.comp, h0]
    rw [hcomp, hfind2]
    show (if (s.sessionId == sid) = true then
        { s with grantedOrigins :=
            if s.grantedOrigins.contains o then s.grantedOrigins
            else s.grantedOrigins ++ [o] }
      else s).grantedOrigins.contains o = true
    rw [if_pos hmatch]
    show (if s.grantedOrigins.contains o then s.grantedOrigins
      else s.grantedOrigins ++ [o]).contains o = true
    by_cases hco : s.grantedOrigins.contains o = true
    · rw [if_pos hco]
      exact hco
    · rw [if_neg hco]
      rw [contains_decide, decide_eq_true_iff]
      simp

theorem awaitPermission_policies_eq (env : Env) (req : PermissionRequest) (sid : String)
    (st : SWState) (w : PermissionWait) (st1 : SWState)
    (heq : awaitPermission env req sid st = (w, st1)) :
    st1.policies = st.policies ∨ env.ui = UIOutcome.decided true true := by
  have h := awaitPermission_policies env req sid st
  rw [heq] at h
  exact h

theorem forwardTool_state (env : Env) (tool : String) (t : Nat) (st : SWState)
    (reqs : List PermissionRequest) :
    (forwardTool env tool t st reqs).state = st ∧
    (forwardTool env tool t st reqs).trace.permissionRequests = reqs := by
  unfold forwardTool
  split
  · exact ⟨rfl, rfl⟩
  · split
    · split <;> exact ⟨rfl, rfl⟩
    · split
      · exact ⟨rfl, rfl⟩
      · split <;> exact ⟨rfl, rfl⟩

theorem navAddCreatedTab_policies (env : Env) (cmd : Command) (st1 : SWState) :
    (navAddCreatedTab env cmd st1).policies = st1.policies := by
  unfold navAddCreatedTab
  split <;> rfl

theorem createTabAdd_policies (env : Env) (sid : String) (st1 : SWState) :
    (createTabAdd env sid st1).policies = st1.policies := by
  unfold createTabAdd
  split <;> rfl

theorem navigateNewTab_policies (env : Env) (origin : String) (cmd : Command)
    (st : SWState) :
    (navigateNewTab env origin cmd st).state.policies = st.policies ∨
      env.ui = UIOutcome.decided true true := by
  unfold navigateNewTab
  split
  · left
    rfl
  · dsimp only
    split
    all_goals rename_i heq
    · rcases awaitPermission_policies_eq _ _ _ _ _ _ heq with h | h
      · left
        simpa using h
      · right
        exact h
    · rcases awaitPermission_policies_eq _ _ _ _ _ _ heq with h | h
      · left
        simpa using h
      · right
        exact h
    · rcases awaitPermission_policies_eq _ _ _ _ _ _ heq with h | h
      · left
        simpa [navAddCreatedTab_policies] using h
      · right
        exact h

theorem navigateExistingTab_policies (env : Env) (origin : String) (cmd : Command)
    (t : Nat) (st : SWState) :
    (navigateExistingTab env origin cmd t st).state.policies = st.policies ∨
      env.ui = UIOutcome.decided true true := by
  unfold navigateExistingTab
  split
  · left
    rfl
  · dsimp only
    split
    all_goals rename_i heq
    all_goals rcases awaitPermission_policies_eq _ _ _ _ _ _ heq with h | h
    · left
      simpa using h
    · right
      exact h
    · left
      simpa using h
    · right
      exact h
    · left
      simpa using h
    · right
      exact h

theorem sensitiveProceed_policies (env : Env) (origin : String) (cmd : Command)
    (tool : String) (t : Nat) (st : SWState) (targetOrigin : String) :
    (sensitiveProceed env origin cmd tool t st targetOrigin).state.policies = st.policies ∨
      env.ui = UIOutcome.decided true true := by
  unfold sensitiveProceed
  dsimp only
  split
  all_goals rename_i heq
  all_goals rcases awaitPermission_policies_eq _ _ _ _ _ _ heq with h | h
  · left
    simpa using h
  · right
    exact h
  · left
    simpa using h
  · right
    exact h
  · left
    rw [(forwardTool_state env tool t _ _).1]
    simpa using h
  · right
    exact h

theorem sensitiveExec_policies (env : Env) (origin : String) (cmd : Command)
    (tool : String) (t : Nat) (st : SWState) :
    (sensitiveExec env origin cmd tool t st).state.policies = st.policies ∨
      env.ui = UIOutcome.decided true true := by
  unfold sensitiveExec
  split
  · left
    rfl
  · split
    · exact sensitiveProceed_policies env origin cmd tool t st "unknown"
    · split
      · left
        rfl
      · exact sensitiveProceed_policies env origin cmd tool t st _

theorem createTabBranch_policies (env : Env) (origin : String) (cmd : Command)
    (st : SWState) :
    (createTabBranch env origin cmd st).state.policies = st.policies ∨
      env.ui = UIOutcome.decided true true := by
  unfold createTabBranch
  split
  · left
    rfl
  · split
    · left
      rfl
    · dsimp only
      split
      all_goals rename_i heq
      all_goals rcases awaitPermission_policies_eq _ _ _ _ _ _ heq with h | h
      · left
        simpa using h
      · right
        exact h
      · left
        simpa using h
      · right
        exact h
      · left
        simpa [createTabAdd_policies] using h
      · right
        exact h

theorem listTabsBranch_state (env : Env) (cmd : Command) (st : SWState) :
    (listTabsBranch env cmd st).state = st := by
  unfold listTabsBranch
  split
  · rfl
  · split <;> rfl

theorem execOnTab_policies (env : Env) (origin : String) (cmd : Command) (tool : String)
    (t : Nat) (st : SWState) :
    (execOnTab env origin cmd tool t st).state.policies = st.policies ∨
      env.ui = UIOutcome.decided true true := by
  unfold execOnTab
  split
  · exact navigateExistingTab_policies env origin cmd t st
  · split
    · exact sensitiveExec_policies env origin cmd tool t st
    · left
      rw [(forwardTool_state env tool t st []).1]

theorem execBranch_policies (env : Env) (origin : String) (cmd : Command) (st : SWState) :
    (execBranch env origin cmd st).state.policies = st.policies ∨
      env.ui = UIOutcome.decided true true := by
  unfold execBranch
  dsimp only
  split
  · left
    rfl
  · split
    · exact navigateNewTab_policies env origin cmd st
    · split
      · split
        · exact execOnTab_policies env origin cmd _ _ st
        · left
          rfl
      · exact execOnTab_policies env origin cmd _ _ st
      · left
        rfl

theorem dispatchCommand_policies (env : Env) (msg : InboundMessage) (st : SWState) :
    (dispatchCommand env msg st).state.policies = st.policies ∨
      env.ui = UIOutcome.decided true true := by
  unfold dispatchCommand
  dsimp only
  split
  · exact createTabBranch_policies env msg.origin msg.command _
  · split
    · left
      rw [listTabsBranch_state]
    · split
      · exact execBranch_policies env msg.origin msg.command _
      · left
        rfl

theorem executeCommand_policies (env : Env) (msg : InboundMessage) (st : SWState) :
    (executeCommand env msg st).state.policies = st.policies ∨
      env.ui = UIOutcome.decided true true := by
  unfold executeCommand
  dsimp only
  split
  · split
    · split
      · left
        rfl
      · left
        rfl
    · split
      · left
        rfl
      · exact dispatchCommand_policies env msg _
  · left
    rfl

theorem isAllowed_grantPermission (pol : List PermissionPolicy) (req : PermissionRequest) :
    isAllowed (grantPermission pol req) req = true := by
  unfold grantPermission
  split
  next hex =>
    rw [isAllowed, List.any_eq_true]
    rw [List.any_eq_true] at hex
    obtain ⟨p0, hp0mem, hp0⟩ := hex
    refine ⟨_, List.mem_map_of_mem _ hp0mem, ?_⟩
    rw [if_pos hp0]
    have h1 := Bool.and_eq_true_iff.mp hp0
    simp only [h1.1, h1.2, Bool.true_and]
    split
    next hct => exact hct
    next =>
      rw [contains_decide, decide_eq_true_iff]
      simp
  next =>
    rw [isAllowed, List.any_eq_true]
    refine ⟨⟨req.callerOrigin, req.targetOrigin, [req.action]⟩, by simp, ?_⟩
    simp [contains_decide]

/-- C6. On an explicit allow decision for a pending approval (the decision
message carrying the pending approval's own sessionId, which is what the
popup echoes back from getPendingPermission), the target origin is granted
at session level via grantOriginForSession for that session, independent of
the remember flag; a persistent policy is written iff remember was
selected; and no other operation — requestPermission, createSession, the
permission timeout, a deny or non-remember decision, or a command run whose
UI did not answer allow-with-remember — ever writes a policy. -/
theorem c6_allow_decision_grants (pid : String) (r : Bool) (p : PendingPermissionUI)
    (st : SWState)
    (hp : lookupStr st.pendingPermissions pid = some p)
    (hs : (getSession st.sessions p.sessionId).isSome = true) :
    (permissionDecision ⟨pid, true, r, some p.sessionId⟩ st).fst
      = DecisionResult.resolved true ∧
    isOriginGrantedForSession
      (permissionDecision ⟨pid, true, r, some p.sessionId⟩ st).snd.sessions
      p.sessionId p.request.targetOrigin = true ∧
    (r = true →
      isAllowed (permissionDecision ⟨pid, true, r, some p.sessionId⟩ st).snd.policies
        p.request = true) ∧
    (r = false →
      (permissionDecision ⟨pid, true, r, some p.sessionId⟩ st).snd.policies
        = st.policies) ∧
    (∀ req sid fid st2, (requestPermission req sid fid st2).snd.policies = st2.policies) ∧
    (∀ co fs ft n st2, (createSessionHandler co fs ft n st2).snd.policies = st2.policies) ∧
    (∀ pid2 st2, (permissionTimeoutFire pid2 st2).snd.policies = st2.policies) ∧
    (∀ msg2 st2, msg2.allow = false ∨ msg2.remember = false →
      (permissionDecision msg2 st2).snd.policies = st2.policies) ∧
    (∀ env msg2 st2, (executeCommand env msg2 st2).state.policies = st2.policies ∨
      env.ui = UIOutcome.decided true true) := by
  have hded : permissionDecision ⟨pid, true, r, some p.sessionId⟩ st =
      (DecisionResult.resolved true,
        { st with
            sessions := grantOriginForSession st.sessions p.sessionId p.request.targetOrigin,
            policies := if r then grantPermission st.policies p.request else st.policies,
            pendingPermissions :=
              mapDelete
                { st with
                    sessions :=
                      grantOriginForSession st.sessions p.sessionId p.request.targetOrigin,
                    policies :=
                      if r then grantPermission st.policies p.request else st.policies
                  }.pendingPermissions pid }) := by
    unfold permissionDecision
    rw [hp]
    rfl
  refine ⟨?_, ?_, ?_, ?_, requestPermission_policies, createSessionHandler_policies,
    permissionTimeoutFire_policies, permissionDecision_policies_unless_remember,
    executeCommand_policies⟩
  · rw [hded]
  · rw [hded]
    exact isOriginGranted_grant st.sessions p.sessionId p.request.targetOrigin hs
  · intro hr
    rw [hded]
    show isAllowed (if r = true then grantPermission st.policies p.request else st.policies)
      p.request = true
    rw [if_pos hr]
    exact isAllowed_grantPermission st.policies p.request
  · intro hr
    rw [hded]
    show (if r = true then grantPermission st.policies p.request else st.policies)
      = st.policies
    rw [if_neg (by simp [hr])]

/-- C6, witness at a concrete pending approval with remember unchecked: the
decision resolves allow, the owning session gains the session-level grant,
and no policy is written. -/
theorem c6_witness :
    isOriginGrantedForSession
      (permissionDecision ⟨"p1", true, false, some "s1"⟩ stC7).snd.sessions
      "s1" "https://t.example" = true ∧
    (permissionDecision ⟨"p1", true, false, some "s1"⟩ stC7).snd.policies
      = stC7.policies := by
  have h := c6_allow_decision_grants "p1" false ⟨"p1", reqW, "s1"⟩ stC7 (by decide) (by decide)
  exact ⟨h.2.1, h.2.2.2.1 rfl⟩

/-- C9, witness at a concrete token store and a concrete connect run. -/
theorem c9_witness :
    validateSessionToken (some "tok1") "https://app.example" (0 + 86340000)
      stW.sessionTokens = none ∧
    validateSessionToken (some "tok1") "https://app.example" (0 + 86460000)
      stW.sessionTokens = some "Invalid or expired session token" := by
  have h := c9_token_lifetime 0 "https://app.example" "tok1" stW.sessionTokens (by decide)
    (by decide) envW msgConn stW (by decide) rfl (by decide)
  exact ⟨h.2.2.1, h.2.2.2⟩

theorem dispatchCommand_execute (env : Env) (msg : InboundMessage) (st : SWState)
    (htype : msg.command.type = "execute") :
    dispatchCommand env msg st = execBranch env msg.origin msg.command
      { st with pendingRequests := trackRequest env.now msg.origin msg.requestId msg.command.tabId st.pendingRequests } := by
  unfold dispatchCommand
  dsimp only
  rw [htype]
  rw [if_neg (by decide), if_neg (by decide), if_pos rfl]

theorem dispatchCommand_createTab (env : Env) (msg : InboundMessage) (st : SWState)
    (htype : msg.command.type = "createTab") :
    dispatchCommand env msg st = createTabBranch env msg.origin msg.command
      { st with pendingRequests := trackRequest env.now msg.origin msg.requestId msg.command.tabId st.pendingRequests } := by
  unfold dispatchCommand
  dsimp only
  rw [htype]
  rw [if_pos rfl]

theorem execBranch_resolved (env : Env) (origin : String) (cmd : Command) (st : SWState)
    (sid : String) (t : Nat)
    (hsid : strOpt cmd.sessionId = some sid)
    (hsess : getSession st.sessions sid ≠ none)
    (htab : tabOpt cmd.tabId = some t) (ht1 : t ≠ 1)
    (hown : isTabInSession st.sessions sid t = true) :
    execBranch env origin cmd st = execOnTab env origin cmd (cmd.tool.getD "") t st := by
  unfold execBranch resolveTab
  dsimp only
  rw [hsid, htab]
  rw [if_neg (by simp [hsess]), if_neg (by simp [ht1]), if_neg (by simp [ht1])]
  dsimp only
  rw [if_pos hown]

theorem execBranch_denied (env : Env) (origin : String) (cmd : Command) (st : SWState)
    (sid : String) (t : Nat)
    (hsid : strOpt cmd.sessionId = some sid)
    (hsess : getSession st.sessions sid ≠ none)
    (htab : tabOpt cmd.tabId = some t) (ht1 : t ≠ 1)
    (hown : isTabInSession st.sessions sid t = false) :
    execBranch env origin cmd st =
      ⟨.err ("Access denied: Tab " ++ toString t ++ " does not belong to this session"),
        st, ExecTrace.empty⟩ := by
  unfold execBranch resolveTab
  dsimp only
  rw [hsid, htab]
  rw [if_neg (by simp [hsess]), if_neg (by simp [ht1]), if_neg (by simp [ht1])]
  dsimp only
  rw [if_neg (by simp [hown])]

theorem navigateExistingTab_perm (env : Env) (origin : String) (cmd : Command) (t : Nat)
    (st : SWState) (x : String) (h : cmd.argsUrl.bind env.urlOrigin = some x) :
    (navigateExistingTab env origin cmd t st).trace.permissionRequests ≠ [] := by
  unfold navigateExistingTab
  rw [h]
  dsimp only
  split <;> simp

theorem sensitiveProceed_perm (env : Env) (origin : String) (cmd : Command) (tool : String)
    (t : Nat) (st : SWState) (tOrg : String) :
    (sensitiveProceed env origin cmd tool t st tOrg).trace.permissionRequests ≠ [] := by
  unfold sensitiveProceed
  dsimp only
  split
  · simp
  · simp
  · rw [(forwardTool_state _ _ _ _ _).2]
    simp

theorem sensitiveExec_reduces (env : Env) (origin : String) (cmd : Command) (tool : String)
    (t : Nat) (st : SWState) (u tOrg : String)
    (htabs : env.tabs t = some ⟨t, some u⟩) (hu : u ≠ "")
    (hurl : env.urlOrigin u = some tOrg) :
    sensitiveExec env origin cmd tool t st = sensitiveProceed env origin cmd tool t st tOrg
      := by
  unfold sensitiveExec
  rw [htabs]
  dsimp only
  rw [show strOpt (some u) = some u from by simp [strOpt, hu]]
  dsimp only
  rw [hurl]

theorem forwardTool_dispatch (env : Env) (tool : String) (t : Nat) (st : SWState)
    (reqs : List PermissionRequest) (u tOrg : String)
    (htabs : env.tabs t = some ⟨t, some u⟩) (hu : u ≠ "")
    (hurl : env.urlOrigin u = some tOrg) :
    (forwardTool env tool t st reqs).trace.dispatchedTools = [(t, tool)] := by
  unfold forwardTool
  rw [htabs]
  dsimp only
  rw [show strOpt (some u) = some u from by simp [strOpt, hu]]
  dsimp only
  rw [hurl]
  dsimp only
  split <;> rfl

/-- C2. An execute command whose explicit tabId is not in the session's tab
set (an existing session, a usable explicit tab id) is answered with the
tab-access-denied error and produces no permission request, no dispatch to
DOM execution, and no tab creation, even though its session token is valid;
the isTabInSession check fails closed. -/
theorem c2_tab_access_denied (env : Env) (msg : InboundMessage) (st : SWState)
    (sid : String) (t : Nat)
    (htype : msg.command.type = "execute")
    (hn : (consume msg.nonce st.usedNonces).fst = true)
    (htok : validateSessionToken msg.sessionToken msg.origin env.now st.sessionTokens
      = none)
    (hsid : strOpt msg.command.sessionId = some sid)
    (hsess : getSession st.sessions sid ≠ none)
    (htab : tabOpt msg.command.tabId = some t) (ht1 : t ≠ 1)
    (hown : isTabInSession st.sessions sid t = false) :
    (executeCommand env msg st).payload =
      .err ("Access denied: Tab " ++ toString t ++ " does not belong to this session") ∧
    (executeCommand env msg st).trace = ExecTrace.empty := by
  rw [executeCommand_dispatch env msg st hn (by rw [htype]; decide) htok]
  rw [dispatchCommand_execute env msg _ htype]
  have key : ∀ stB : SWState, stB.sessions = st.sessions →
      (execBranch env msg.origin msg.command stB).payload =
        .err ("Access denied: Tab " ++ toString t ++ " does not belong to this session") ∧
      (execBranch env msg.origin msg.command stB).trace = ExecTrace.empty := by
    intro stB hB
    rw [execBranch_denied env msg.origin msg.command stB sid t hsid
      (by rw [hB]; exact hsess) htab ht1 (by rw [hB]; exact hown)]
    exact ⟨rfl, rfl⟩
  exact key _ rfl

/-- C2, witness: tab 5 is not owned by session s1, so the concrete execute
command is denied and nothing reaches DOM execution. -/
theorem c2_witness :
    (executeCommand envW msgC2 stW).payload =
      Payload.err ("Access denied: Tab " ++ toString 5 ++
        " does not belong to this session") ∧
    (executeCommand envW msgC2 stW).trace = ExecTrace.empty :=
  c2_tab_access_denied envW msgC2 stW "s1" 5 rfl (by decide) (by decide) (by decide)
    (by decide) (by decide) (by decide) (by decide)

/-- C4. With the replay guard passed, the bootstrap connect command is
processed without session-token validation and succeeds — creating a
session for the transport-attested origin and issuing a token bound to that
origin with the 24-hour lifetime — iff isSecureOrigin holds for that
origin; an insecure origin is refused outright with no state change. Every
other command whose session-token validation fails is answered with that
validation error only: nothing is dispatched and no session, token, policy
or pending-permission state changes. -/
theorem c4_connect_gate (env : Env) (msg : InboundMessage) (st : SWState)
    (hn : (consume msg.nonce st.usedNonces).fst = true) :
    (msg.command.type = "connect" →
      ((executeCommand env msg st).payload
          = Payload.sessionCreated env.freshSessionId env.freshToken
        ↔ isSecureOrigin msg.origin = true) ∧
      (isSecureOrigin msg.origin = true →
        lookupStr (executeCommand env msg st).state.sessionTokens env.freshToken
          = some ⟨msg.origin, env.now, env.now + tokenLifetimeMs⟩ ∧
        (executeCommand env msg st).state.sessions
          = st.sessions ++ [createSession msg.origin env.freshSessionId env.now]) ∧
      (isSecureOrigin msg.origin = false →
        (executeCommand env msg st).payload
          = Payload.err ("Insecure origin \"" ++ msg.origin ++
              "\". Only HTTPS or localhost allowed.") ∧
        (executeCommand env msg st).state.sessions = st.sessions ∧
        (executeCommand env msg st).state.sessionTokens = st.sessionTokens)) ∧
    (msg.command.type ≠ "connect" →
      ∀ e, validateSessionToken msg.sessionToken msg.origin env.now st.sessionTokens
          = some e →
        (executeCommand env msg st).payload = Payload.err e ∧
        (executeCommand env msg st).trace = ExecTrace.empty ∧
        (executeCommand env msg st).state.sessions = st.sessions ∧
        (executeCommand env msg st).state.sessionTokens = st.sessionTokens ∧
        (executeCommand env msg st).state.policies = st.policies ∧
        (executeCommand env msg st).state.pendingPermissions = st.pendingPermissions) := by
  constructor
  · intro hc
    rcases Bool.eq_false_or_eq_true (isSecureOrigin msg.origin) with hsec | hsec
    · rw [executeCommand_connect env msg st hn hc hsec]
      refine ⟨by simp [hsec], fun _ => ⟨lookupStr_mapSet_self _ _ _, rfl⟩, fun hf => ?_⟩
      rw [hsec] at hf
      exact absurd hf (by decide)
    · rw [executeCommand_connect_insecure env msg st hn hc hsec]
      refine ⟨by simp [hsec], fun ht => ?_, fun _ => ⟨rfl, rfl, rfl⟩⟩
      rw [hsec] at ht
      exact absurd ht (by decide)
  · intro hc e htok
    rw [executeCommand_token_reject env msg st e hn hc htok]
    exact ⟨rfl, rfl, rfl, rfl, rfl, rfl⟩

/-- C4, witness: a concrete secure-origin connect succeeds and its issued
token is bound to the transport origin; separately, a non-connect command
with a missing token is refused with the token error and no state change. -/
theorem c4_witness :
    (executeCommand envW msgConn stW).payload
      = Payload.sessionCreated envW.freshSessionId envW.freshToken ∧
    (executeCommand envW { msgC2 with sessionToken := none } stW).payload
      = Payload.err "Session token required" :=
  ⟨((c4_connect_gate envW msgConn stW (by decide)).1 rfl).1.mpr (by decide),
    ((c4_connect_gate envW { msgC2 with sessionToken := none } stW (by decide)).2
      (by decide) "Session token required" (by decide)).1⟩


/-- C10. For an execute command on a resolved, session-owned tab (valid
nonce and token, existing session, explicit usable tabId, a tab whose URL
parses), the permission negotiator is invoked iff the tool is navigate,
click, type or evaluate (for navigate, provided its target URL parses); the
tools snapshot, waitFor and consoleMessages are forwarded to DOM execution
with no permission request, no session-grant change and no policy change;
and the createTab command is gated by its own permission request on its own
path. -/
theorem c10_permission_gate (env : Env) (msg : InboundMessage) (st : SWState)
    (sid : String) (t : Nat) (tl u tOrg : String)
    (htype : msg.command.type = "execute")
    (hn : (consume msg.nonce st.usedNonces).fst = true)
    (htok : validateSessionToken msg.sessionToken msg.origin env.now st.sessionTokens
      = none)
    (hsid : strOpt msg.command.sessionId = some sid)
    (hsess : getSession st.sessions sid ≠ none)
    (htab : tabOpt msg.command.tabId = some t) (ht1 : t ≠ 1)
    (hown : isTabInSession st.sessions sid t = true)
    (htool : msg.command.tool = some tl)
    (htabs : env.tabs t = some ⟨t, some u⟩) (hu : u ≠ "")
    (hurl : env.urlOrigin u = some tOrg)
    (hnav : tl = "navigate" → (msg.command.argsUrl.bind env.urlOrigin).isSome = true) :
    ((executeCommand env msg st).trace.permissionRequests ≠ [] ↔
      (tl = "navigate" ∨ tl = "click" ∨ tl = "type" ∨ tl = "evaluate")) ∧
    ((tl = "snapshot" ∨ tl = "waitFor" ∨ tl = "consoleMessages") →
      (executeCommand env msg st).trace.permissionRequests = [] ∧
      (executeCommand env msg st).trace.dispatchedTools = [(t, tl)] ∧
      (executeCommand env msg st).state.sessions = st.sessions ∧
      (executeCommand env msg st).state.policies = st.policies ∧
      (executeCommand env msg st).state.pendingPermissions = st.pendingPermissions) ∧
    (∀ env2 msg2 st2 sid2 x,
      msg2.command.type = "createTab" →
      (consume msg2.nonce st2.usedNonces).fst = true →
      validateSessionToken msg2.sessionToken msg2.origin env2.now st2.sessionTokens
        = none →
      strOpt msg2.command.sessionId = some sid2 →
      msg2.command.url.bind env2.urlOrigin = some x →
      (executeCommand env2 msg2 st2).trace.permissionRequests ≠ []) := by
  have htl : msg.command.tool.getD "" = tl := by
    rw [htool]
    rfl
  rw [executeCommand_dispatch env msg st hn (by rw [htype]; decide) htok,
    dispatchCommand_execute env msg _ htype]
  have key : ∀ stB : SWState,
      stB.sessions = st.sessions → stB.policies = st.policies →
      stB.pendingPermissions = st.pendingPermissions →
      (((execBranch env msg.origin msg.command stB).trace.permissionRequests ≠ [] ↔
        (tl = "navigate" ∨ tl = "click" ∨ tl = "type" ∨ tl = "evaluate")) ∧
      ((tl = "snapshot" ∨ tl = "waitFor" ∨ tl = "consoleMessages") →
        (execBranch env msg.origin msg.command stB).trace.permissionRequests = [] ∧
        (execBranch env msg.origin msg.command stB).trace.dispatchedTools = [(t, tl)] ∧
        (execBranch env msg.origin msg.command stB).state.sessions = st.sessions ∧
        (execBranch env msg.origin msg.command stB).state.policies = st.policies ∧
        (execBranch env msg.origin msg.command stB).state.pendingPermissions
          = st.pendingPermissions)) := by
    intro stB hBs hBp hBpp
    rw [execBranch_resolved env msg.origin msg.command stB sid t hsid
      (by rw [hBs]; exact hsess) htab ht1 (by rw [hBs]; exact hown), htl]
    constructor
    · by_cases hnavt : tl = "navigate"
      · obtain ⟨x, hx⟩ := Option.isSome_iff_exists.mp (hnav hnavt)
        rw [show execOnTab env msg.origin msg.command tl t stB
            = navigateExistingTab env msg.origin msg.command t stB from by
          unfold execOnTab
          rw [if_pos hnavt]]
        exact ⟨fun _ => Or.inl hnavt,
          fun _ => navigateExistingTab_perm env msg.origin msg.command t stB x hx⟩
      · by_cases hsens : sensitiveActions.contains tl = true
        · have hset : tl = "click" ∨ tl = "type" ∨ tl = "evaluate" := by
            simpa [sensitiveActions] using hsens
          rw [show execOnTab env msg.origin msg.command tl t stB
              = sensitiveExec env msg.origin msg.command tl t stB from by
            unfold execOnTab
            rw [if_neg hnavt, if_pos hsens]]
          rw [sensitiveExec_reduces env msg.origin msg.command tl t stB u tOrg htabs hu
            hurl]
          exact ⟨fun _ => Or.inr hset,
            fun _ => sensitiveProceed_perm env msg.origin msg.command tl t stB tOrg⟩
        · have hnotin : ¬ (tl = "navigate" ∨ tl = "click" ∨ tl = "type" ∨ tl = "evaluate")
            := by
            rintro (h | h | h | h)
            · exact hnavt h
            · rw [h] at hsens
              exact hsens (by decide)
            · rw [h] at hsens
              exact hsens (by decide)
            · rw [h] at hsens
              exact hsens (by decide)
          rw [show execOnTab env msg.origin msg.command tl t stB
              = forwardTool env tl t stB [] from by
            unfold execOnTab
            rw [if_neg hnavt, if_neg hsens]]
          rw [(forwardTool_state env tl t stB []).2]
          simp [hnotin]
    · intro htl3
      have hnavt : ¬ tl = "navigate" := by
        rcases htl3 with rfl | rfl | rfl <;> decide
      have hsens : ¬ sensitiveActions.contains tl = true := by
        rcases htl3 with rfl | rfl | rfl <;> decide
      rw [show execOnTab env msg.origin msg.command tl t stB
          = forwardTool env tl t stB [] from by
        unfold execOnTab
        rw [if_neg hnavt, if_neg hsens]]
      refine ⟨(forwardTool_state env tl t stB []).2,
        forwardTool_dispatch env tl t stB [] u tOrg htabs hu hurl, ?_, ?_, ?_⟩
      · rw [(forwardTool_state env tl t stB []).1, hBs]
      · rw [(forwardTool_state env tl t stB []).1, hBp]
      · rw [(forwardTool_state env tl t stB []).1, hBpp]
  refine ⟨?_, ?_, ?_⟩
  · exact (key _ (by rfl) (by rfl) (by rfl)).1
  · exact (key _ (by rfl) (by rfl) (by rfl)).2
  intro env2 msg2 st2 sid2 x htype2 hn2 htok2 hsid2 hx2
  rw [executeCommand_dispatch env2 msg2 st2 hn2 (by rw [htype2]; decide) htok2,
    dispatchCommand_createTab env2 msg2 _ htype2]
  unfold createTabBranch
  rw [hsid2]
  dsimp only
  rw [hx2]
  dsimp only
  split <;> simp

/-- C10, witness: the snapshot tool on owned tab 7 is forwarded to the
content script with no permission request. -/
theorem c10_witness :
    (executeCommand envW msgC10 stW).trace.permissionRequests = [] ∧
    (executeCommand envW msgC10 stW).trace.dispatchedTools = [(7, "snapshot")] := by
  have h := c10_permission_gate envW msgC10 stW "s1" 7 "snapshot"
    "https://t.example/page" "https://t.example" rfl (by decide) (by decide) (by decide)
    (by decide) (by decide) (by decide) (by decide) rfl (by decide) (by decide)
    (by decide) (by decide)
  exact ⟨(h.2.1 (Or.inl rfl)).1, (h.2.1 (Or.inl rfl)).2.1⟩

end Bridge
